import Mathlib

/-!
Shallow embedding of the email-assistant conversation core
(trigger_setup/context_manager.py, trigger_setup/database.py,
trigger_setup/email_handler.py, trigger_setup/agent.py).

Python string primitives used by the source (`str.split(sep)` with a
one-character separator, `str.lower()`, the `in` substring test on a
one-character needle, and truthiness of strings) are modelled by
structurally recursive functions on the character list of a `String`,
so that every definition evaluates by kernel reduction.
-/

namespace EmailAssistant

/-- Python `str.split(sep)` for a one-character separator `sep`:
splits at every occurrence, keeping empty pieces, never returning `[]`.
Mirrors CPython semantics, e.g. `"a<b<".split("<") == ["a","b",""]`. -/
def pySplitCharAux (sep : Char) : List Char → List Char → List String
  | [], acc => [String.mk acc.reverse]
  | c :: cs, acc =>
    if c = sep then String.mk acc.reverse :: pySplitCharAux sep cs []
    else pySplitCharAux sep cs (c :: acc)

/-- Python `s.split(sep)` for a one-character separator. -/
def pySplitChar (sep : Char) (s : String) : List String :=
  pySplitCharAux sep s.data []

/-- Python `sep in s` for a one-character needle. -/
def pyContainsChar (sep : Char) (s : String) : Bool :=
  s.data.contains sep

/-- Python `s.lower()` (restricted to the ASCII range, which is all the
source compares: mailbox addresses). -/
def pyLower (s : String) : String :=
  String.mk (s.data.map Char.toLower)

/-- Python `l[-n:]` for a natural `n`: with `n = 0` the slice `[-0:]` is
`[0:]`, i.e. the whole list; with `n ≥ 1` it is the last `min n (length l)`
elements. -/
def pyTailSlice (l : List α) (n : Nat) : List α :=
  if n = 0 then l else l.drop (l.length - n)

/-- Model of a `langchain_core` `BaseMessage`: the dynamic class name
(`msg.__class__.__name__`), the textual `content`, the `additional_kwargs`
map, and `tool_calls` (`none` models a message class without the
attribute, `some l` a present attribute with value `l`). -/
structure BaseMessage where
  typeName : String
  content : String
  additional_kwargs : List (String × String)
  tool_calls : Option (List String)
deriving Repr, DecidableEq

/-- The `HumanMessage(content=...)` constructor: no `tool_calls`
attribute, empty `additional_kwargs`. -/
def HumanMessage (content : String) : BaseMessage :=
  ⟨"HumanMessage", content, [], none⟩

/-- The `AIMessage(content=...)` constructor: `tool_calls` attribute
present and empty, empty `additional_kwargs`. -/
def AIMessage (content : String) : BaseMessage :=
  ⟨"AIMessage", content, [], some []⟩

/-- The `SystemMessage(content=...)` constructor. -/
def SystemMessage (content : String) : BaseMessage :=
  ⟨"SystemMessage", content, [], none⟩

/-- Model of one stored message record (the dict built by
`ContextManager._serialize_messages`); every field is optional because
`_deserialize_messages` reads them with `dict.get` defaults. -/
structure MsgDict where
  type : Option String
  content : Option String
  timestamp : Option String
  additional_kwargs : Option (List (String × String))
deriving Repr, DecidableEq

/-- `ContextManager._serialize_messages`: each message becomes a dict
with its class name, content, the serialization timestamp `now`
(`datetime.utcnow().isoformat()`), and — since every `BaseMessage` has
the attribute — its `additional_kwargs`. -/
def _serialize_messages (now : String) (messages : List BaseMessage) : List MsgDict :=
  messages.map fun msg =>
    { type := some msg.typeName
      content := some msg.content
      timestamp := some now
      additional_kwargs := some msg.additional_kwargs }

/-- One iteration of the loop in `ContextManager._deserialize_messages`:
dispatch on `msg_dict.get('type', 'HumanMessage')` with content
`msg_dict.get('content', '')`, falling back to `HumanMessage` on an
unrecognized type tag. -/
def _deserialize_one (msg_dict : MsgDict) : BaseMessage :=
  let msg_type := msg_dict.type.getD "HumanMessage"
  let content := msg_dict.content.getD ""
  if msg_type = "HumanMessage" then HumanMessage content
  else if msg_type = "AIMessage" then AIMessage content
  else if msg_type = "SystemMessage" then SystemMessage content
  else HumanMessage content

/-- `ContextManager._deserialize_messages`. -/
def _deserialize_messages (message_dicts : List MsgDict) : List BaseMessage :=
  message_dicts.map _deserialize_one

/-- One row of the `conversations` table (`database.Conversation`);
`message_history` and `context` hold the structured values whose JSON
dump/load round-trip the Text columns carry. `thread_id` is `Option`
because the untyped Python call sites can pass `None` through. -/
structure ConvRow where
  user_id : String
  thread_id : Option String
  sender_email : String
  message_history : List MsgDict
  pending_action : Option String
  context : List (String × String)
  created_at : String
  updated_at : String
deriving Repr, DecidableEq

/-- The conversation store: the rows of the `conversations` table. -/
abbrev Store := List ConvRow

/-- The composite-key filter `filter_by(user_id=..., thread_id=...)`. -/
def keyMatches (user_id : String) (thread_id : Option String) (r : ConvRow) : Bool :=
  r.user_id == user_id && r.thread_id == thread_id

/-- `ConversationStore.get_conversation`: first row matching the
composite key, or `none`. -/
def get_conversation (store : Store) (user_id : String) (thread_id : Option String) :
    Option ConvRow :=
  store.find? (keyMatches user_id thread_id)

/-- Upsert helper mirroring `ConversationStore.save_conversation`:
update the first row matching the queried key in place (keeping its
`created_at`), else add a fresh row. -/
def upsertRow (user_id : String) (thread_id : Option String) (row : ConvRow) :
    Store → Store
  | [] => [row]
  | r :: rs =>
    if keyMatches user_id thread_id r then
      { row with created_at := r.created_at } :: rs
    else
      r :: upsertRow user_id thread_id row rs

/-- `ConversationStore.save_conversation`: a `None` context defaults to
the empty map; the row's update timestamp is stamped `now`
(`datetime.utcnow()`), and `created_at` is `now` only for a fresh row. -/
def save_conversation (now : String) (store : Store) (user_id : String)
    (thread_id : Option String) (sender_email : String)
    (message_history : List MsgDict) (pending_action : Option String)
    (context : Option (List (String × String))) : Store :=
  upsertRow user_id thread_id
    { user_id := user_id
      thread_id := thread_id
      sender_email := sender_email
      message_history := message_history
      pending_action := pending_action
      context := context.getD []
      created_at := now
      updated_at := now } store

/-- `ContextManager.load_conversation_context` for a manager configured
with `recent_window_size = ws`: empty on a missing conversation, the full
deserialized history when it fits the window, otherwise the Python slice
`all_messages[-ws:]` deserialized. -/
def load_conversation_context (ws : Nat) (store : Store) (user_id : String)
    (thread_id : Option String) : List BaseMessage :=
  match get_conversation store user_id thread_id with
  | none => []
  | some conversation =>
    let all_messages := conversation.message_history
    if all_messages.length ≤ ws then _deserialize_messages all_messages
    else _deserialize_messages (pyTailSlice all_messages ws)

/-- `ContextManager.save_conversation_context`: serialize the given
messages with the current timestamp and upsert them; the `context`
argument of `save_conversation` is not passed (Python `None`). -/
def save_conversation_context (now : String) (store : Store) (user_id : String)
    (thread_id : Option String) (sender_email : String)
    (messages : List BaseMessage) (pending_action : Option String) : Store :=
  save_conversation now store user_id thread_id sender_email
    (_serialize_messages now messages) pending_action none

/-- `ContextManager.get_pending_action`. -/
def get_pending_action (store : Store) (user_id : String)
    (thread_id : Option String) : Option String :=
  match get_conversation store user_id thread_id with
  | some conversation => conversation.pending_action
  | none => none

/-- `ContextManager.clear_pending_action`: when the conversation exists,
re-save it with its own sender and history, `pending_action=None`, and —
because the `context` argument is again not passed — `context` wiped to
the empty map. -/
def clear_pending_action (now : String) (store : Store) (user_id : String)
    (thread_id : Option String) : Store :=
  match get_conversation store user_id thread_id with
  | some conversation =>
    save_conversation now store user_id thread_id conversation.sender_email
      conversation.message_history none none
  | none => store

/-- The `payload` sub-dict of a Composio trigger event; every field is
optional because the source reads them with `dict.get`. -/
structure TriggerPayload where
  sender : Option String
  subject : Option String
  message_text : Option String
  thread_id : Option String
  message_id : Option String
deriving Repr, DecidableEq

/-- The `metadata.connected_account` sub-dict. -/
structure ConnectedAccount where
  id : Option String
deriving Repr, DecidableEq

/-- The `metadata` sub-dict of a trigger event. -/
structure TriggerMetadata where
  connected_account : Option ConnectedAccount
deriving Repr, DecidableEq

/-- A raw Composio trigger event (`trigger_data`). -/
structure TriggerData where
  payload : Option TriggerPayload
  metadata : Option TriggerMetadata
deriving Repr, DecidableEq

/-- The normalized record returned by `EmailHandler.parse_trigger_payload`. -/
structure EmailData where
  sender_email : String
  subject : String
  body : String
  thread_id : Option String
  message_id : Option String
  connected_account_id : Option String
deriving Repr, DecidableEq

/-- A `payload` dict with every field absent (`trigger_data.get("payload", {})`). -/
def emptyPayload : TriggerPayload :=
  ⟨none, none, none, none, none⟩

/-- `EmailHandler.parse_trigger_payload`: the sender string
`"Name <addr>"` is cut to the part between `<` and `>` via
`sender_full.split("<")[1].split(">")[0]`; an empty sender falls back to
the sentinel; subject and body get their documented defaults. -/
def parse_trigger_payload (trigger_data : TriggerData) : EmailData :=
  let payload := trigger_data.payload.getD emptyPayload
  let sender_full := payload.sender.getD ""
  let sender_email :=
    if pyContainsChar '<' sender_full && pyContainsChar '>' sender_full then
      ((pySplitChar '<' sender_full).getD 1 "" |> pySplitChar '>').headD ""
    else if sender_full = "" then "unknown@email.com"
    else sender_full
  let connected_account :=
    ((trigger_data.metadata.getD ⟨none⟩).connected_account).getD ⟨none⟩
  { sender_email := sender_email
    subject := payload.subject.getD "No Subject"
    body := payload.message_text.getD ""
    thread_id := payload.thread_id
    message_id := payload.message_id
    connected_account_id := connected_account.id }

/-- One call to `EmailHandler.send_reply` as the turn records it. -/
structure Reply where
  connected_account_id : Option String
  thread_id : Option String
  recipient_email : String
  message_body : String
deriving Repr, DecidableEq

/-- The observable outcome of `process_email_trigger`: the store it
leaves behind, the replies it attempted to dispatch, and those the
external reply API accepted. -/
structure ProcessResult where
  store : Store
  attemptedReplies : List Reply
  sentReplies : List Reply
deriving Repr, DecidableEq

/-- The `agent_response` accumulation in the `astream` loop of
`process_email_trigger`: the content of the last produced message with
non-empty content and a missing or empty `tool_calls` attribute. -/
def computeAgentResponse (msgs : List BaseMessage) : String :=
  msgs.foldl
    (fun acc msg =>
      if msg.content ≠ "" then
        if msg.tool_calls.getD [] = [] then msg.content else acc
      else acc)
    ""

/-- The `full_email_content` local of `process_email_trigger`. -/
def full_email_content (email_data : EmailData) : String :=
  "Subject: " ++ email_data.subject ++ "\n\nFrom: " ++ email_data.sender_email
    ++ "\n\n" ++ email_data.body

/-- The `new_message` local of `process_email_trigger`: the inbound email
wrapped as a `HumanMessage`. -/
def new_inbound_message (email_data : EmailData) : BaseMessage :=
  HumanMessage ("Process this email and execute the instructions:\n\n"
    ++ full_email_content email_data)

/-- The body of one turn of `process_email_trigger` after the
loop-prevention guard: load windowed history, append the new inbound
`HumanMessage`, run the external agent engine (modelled as the function
`engine` from the engine's input messages to the messages it streams
back), persist the full post-turn list, then attempt reply dispatch when
a thread id and a response exist. `replyOk = false` models
`send_reply` raising; the exception is caught and the turn continues. -/
def process_turn (engine : List BaseMessage → List BaseMessage) (replyOk : Bool)
    (now : String) (ws : Nat) (store : Store) (email_data : EmailData) :
    ProcessResult :=
  let user_id := email_data.sender_email
  let thread_id := email_data.thread_id
  let message_history := load_conversation_context ws store user_id thread_id
  let new_message := new_inbound_message email_data
  let result_messages := engine (message_history ++ [new_message])
  let current_messages := message_history ++ [new_message] ++ result_messages
  let agent_response := computeAgentResponse result_messages
  let store2 := save_conversation_context now store user_id thread_id
    email_data.sender_email current_messages none
  if thread_id.getD "" ≠ "" ∧ agent_response ≠ "" then
    let reply : Reply :=
      ⟨email_data.connected_account_id, thread_id, email_data.sender_email,
        agent_response⟩
    if replyOk then ⟨store2, [reply], [reply]⟩
    else ⟨store2, [reply], []⟩
  else ⟨store2, [], []⟩

/-- `process_email_trigger`: parse the payload, then skip the turn when
the configured mailbox (`GMAIL_USER_ID`, `none` modelling an unset
variable) is non-empty and case-insensitively equals the sender. -/
def process_email_trigger (gmail_user_id : Option String)
    (engine : List BaseMessage → List BaseMessage) (replyOk : Bool)
    (now : String) (ws : Nat) (store : Store) (trigger_data : TriggerData) :
    ProcessResult :=
  let email_data := parse_trigger_payload trigger_data
  let user_id := email_data.sender_email
  let inbox_owner_email := pyLower (gmail_user_id.getD "")
  if inbox_owner_email ≠ "" ∧ pyLower user_id = inbox_owner_email then
    ⟨store, [], []⟩
  else
    process_turn engine replyOk now ws store email_data

/-- A stand-in for the external agent engine used by concrete witnesses:
whatever the input, it streams back a single plain assistant message. -/
def stubEngine : List BaseMessage → List BaseMessage :=
  fun _ => [AIMessage "ok"]

/-! Helper lemmas shared by the claim theorems. -/

/-- Lowercasing a string via `pyLower` yields the empty string exactly on
the empty string. -/
theorem pyLower_eq_empty_iff (s : String) : pyLower s = "" ↔ s = "" := by
  constructor
  · intro h
    have hd : s.data.map Char.toLower = [] := congrArg String.data h
    have hnil : s.data = [] := List.map_eq_nil_iff.mp hd
    cases s with
    | mk d => cases hnil; rfl
  · intro h
    cases h
    rfl

/-- A nonempty string stays nonempty under `pyLower`. -/
theorem pyLower_ne_empty {s : String} (h : s ≠ "") : pyLower s ≠ "" := fun he =>
  h ((pyLower_eq_empty_iff s).mp he)

/-- A row whose key fields agree with the queried key passes the filter. -/
theorem keyMatches_of_eq {u : String} {t : Option String} {r : ConvRow}
    (hu : r.user_id = u) (ht : r.thread_id = t) : keyMatches u t r = true := by
  simp [keyMatches, hu, ht]

/-- Looking up the upserted key after `upsertRow` finds the new row, with
`created_at` taken from the previously stored row when one existed. -/
theorem find?_upsertRow (u : String) (t : Option String) (row : ConvRow)
    (store : Store) (hu : row.user_id = u) (ht : row.thread_id = t) :
    (upsertRow u t row store).find? (keyMatches u t) =
      some (match store.find? (keyMatches u t) with
        | some r => { row with created_at := r.created_at }
        | none => row) := by
  induction store with
  | nil =>
    rw [upsertRow, List.find?_cons_of_pos _ (keyMatches_of_eq hu ht)]
    rfl
  | cons r rs ih =>
    rw [upsertRow]
    by_cases hk : keyMatches u t r
    · rw [if_pos hk,
        List.find?_cons_of_pos _
          (show keyMatches u t { row with created_at := r.created_at } = true from
            keyMatches_of_eq hu ht),
        List.find?_cons_of_pos _ hk]
    · rw [if_neg hk, List.find?_cons_of_neg _ hk, List.find?_cons_of_neg _ hk,
        ih]

/-- A lookup on the very key just saved by `save_conversation` returns the
freshly written row: the given sender, history, pending action and
context (defaulted to the empty map), update timestamp `now`, and the
prior row's creation timestamp when the row already existed. -/
theorem get_conversation_save (now : String) (store : Store) (u : String)
    (t : Option String) (s : String) (h : List MsgDict) (p : Option String)
    (c : Option (List (String × String))) :
    get_conversation (save_conversation now store u t s h p c) u t =
      some { user_id := u, thread_id := t, sender_email := s,
             message_history := h, pending_action := p, context := c.getD [],
             created_at :=
               (match get_conversation store u t with
                 | some r => r.created_at
                 | none => now),
             updated_at := now } := by
  unfold get_conversation save_conversation
  rw [find?_upsertRow u t _ store rfl rfl]
  cases store.find? (keyMatches u t) <;> rfl

/-- Every message produced by `_deserialize_one` is built by one of the
three recognized constructors, so its role tag lies in the closed set and
its auxiliary map is empty. -/
theorem _deserialize_one_shape (d : MsgDict) :
    ((_deserialize_one d).typeName = "HumanMessage"
      ∨ (_deserialize_one d).typeName = "AIMessage"
      ∨ (_deserialize_one d).typeName = "SystemMessage")
    ∧ (_deserialize_one d).additional_kwargs = [] := by
  unfold _deserialize_one
  by_cases h1 : d.type.getD "HumanMessage" = "HumanMessage" <;>
    by_cases h2 : d.type.getD "HumanMessage" = "AIMessage" <;>
      by_cases h3 : d.type.getD "HumanMessage" = "SystemMessage" <;>
        simp [h1, h2, h3, HumanMessage, AIMessage, SystemMessage]

/-! Claim theorems. -/

/-- C1 counterexample: a human message whose auxiliary map is
`[("k","v")]` comes back from a serialize/deserialize round-trip with an
empty auxiliary map, so the map is not preserved across save/load. -/
theorem C1_counterexample :
    (_deserialize_messages (_serialize_messages "2024-01-01T00:00:00"
        [⟨"HumanMessage", "hi", [("k", "v")], none⟩])).map
        BaseMessage.additional_kwargs
      ≠ [[("k", "v")]] := by decide

/-- C1 amended: serialization writes each message's auxiliary map into
the stored record, but deserialization ignores it — every message
produced by `_deserialize_messages` carries the empty auxiliary map, so
the map survives into storage but not across a save/load round-trip. -/
theorem C1_amended_kwargs_not_roundtripped (now : String)
    (messages : List BaseMessage) :
    (_serialize_messages now messages).map MsgDict.additional_kwargs
      = messages.map (fun m => some m.additional_kwargs)
    ∧ ∀ ds : List MsgDict, ∀ m ∈ _deserialize_messages ds,
        m.additional_kwargs = [] := by
  constructor
  · simp [_serialize_messages]
  · intro ds m hm
    rcases List.mem_map.mp hm with ⟨d, _, rfl⟩
    exact (_deserialize_one_shape d).2

/-- C1 amended, witness at a concrete message and record. -/
theorem C1_amended_witness :
    (_serialize_messages "t0" [⟨"HumanMessage", "hi", [("k", "v")], none⟩]).map
        MsgDict.additional_kwargs
      = [some [("k", "v")]]
    ∧ (HumanMessage "hi").additional_kwargs = [] :=
  ⟨(C1_amended_kwargs_not_roundtripped "t0"
      [⟨"HumanMessage", "hi", [("k", "v")], none⟩]).1,
   (C1_amended_kwargs_not_roundtripped "t0"
      [⟨"HumanMessage", "hi", [("k", "v")], none⟩]).2
      [⟨some "HumanMessage", some "hi", none, none⟩] (HumanMessage "hi")
      (by decide)⟩

/-- C2 counterexample: with `recent_window_size = 0` and a stored history
of one message (strictly more than the window), the Python slice
`all_messages[-0:]` is the whole list, so `load_conversation_context`
returns 1 message, not `recent_window_size = 0` of them. -/
theorem C2_counterexample :
    get_conversation
        [⟨"u", some "t", "u", [⟨some "HumanMessage", some "hi", some "t0", some []⟩],
          none, [], "t0", "t0"⟩] "u" (some "t")
      = some ⟨"u", some "t", "u",
          [⟨some "HumanMessage", some "hi", some "t0", some []⟩], none, [], "t0", "t0"⟩
    ∧ (load_conversation_context 0
        [⟨"u", some "t", "u", [⟨some "HumanMessage", some "hi", some "t0", some []⟩],
          none, [], "t0", "t0"⟩] "u" (some "t")).length = 1 := by decide

/-- C2 amended: for every configuration with `recent_window_size ≥ 1`,
a stored history strictly longer than the window loads as exactly the
last `recent_window_size` records, deserialized in their stored order,
and the returned length is `recent_window_size`. (At
`recent_window_size = 0` the slice `[-0:]` returns the full history
instead.) -/
theorem C2_amended_window_truncation (ws : Nat) (store : Store) (u : String)
    (t : Option String) (conv : ConvRow)
    (hget : get_conversation store u t = some conv)
    (hlen : conv.message_history.length > ws) (hws : 1 ≤ ws) :
    load_conversation_context ws store u t
      = _deserialize_messages
          (conv.message_history.drop (conv.message_history.length - ws))
    ∧ (load_conversation_context ws store u t).length = ws := by
  have hnotle : ¬ conv.message_history.length ≤ ws := by omega
  have hws0 : ws ≠ 0 := by omega
  have hload : load_conversation_context ws store u t
      = _deserialize_messages
          (conv.message_history.drop (conv.message_history.length - ws)) := by
    unfold load_conversation_context
    rw [hget]
    simp only [hnotle, if_false, pyTailSlice, hws0]
  refine ⟨hload, ?_⟩
  rw [hload]
  unfold _deserialize_messages
  rw [List.length_map, List.length_drop]
  omega

/-- C2 amended, witness: window 1 over a stored history of two records
returns exactly the last one. -/
theorem C2_amended_witness :
    load_conversation_context 1
        [⟨"u", some "t", "u",
          [⟨some "HumanMessage", some "m1", some "t0", some []⟩,
           ⟨some "AIMessage", some "m2", some "t0", some []⟩],
          none, [], "t0", "t0"⟩] "u" (some "t")
      = _deserialize_messages [⟨some "AIMessage", some "m2", some "t0", some []⟩]
    ∧ (load_conversation_context 1
        [⟨"u", some "t", "u",
          [⟨some "HumanMessage", some "m1", some "t0", some []⟩,
           ⟨some "AIMessage", some "m2", some "t0", some []⟩],
          none, [], "t0", "t0"⟩] "u" (some "t")).length = 1 :=
  C2_amended_window_truncation 1
    [⟨"u", some "t", "u",
      [⟨some "HumanMessage", some "m1", some "t0", some []⟩,
       ⟨some "AIMessage", some "m2", some "t0", some []⟩],
      none, [], "t0", "t0"⟩] "u" (some "t")
    ⟨"u", some "t", "u",
      [⟨some "HumanMessage", some "m1", some "t0", some []⟩,
       ⟨some "AIMessage", some "m2", some "t0", some []⟩],
      none, [], "t0", "t0"⟩ (by decide) (by decide) (by decide)

/-- C3: `load_conversation_context` returns the empty sequence when no
conversation is stored under the key, and for a stored history of at most
`recent_window_size` records it returns the whole history, deserialized
in its stored order, one message per record. -/
theorem C3_load_fresh_or_full (ws : Nat) (store : Store) (u : String)
    (t : Option String) :
    (get_conversation store u t = none →
      load_conversation_context ws store u t = [])
    ∧ ∀ conv : ConvRow, get_conversation store u t = some conv →
        conv.message_history.length ≤ ws →
        load_conversation_context ws store u t
            = _deserialize_messages conv.message_history
          ∧ (load_conversation_context ws store u t).length
            = conv.message_history.length := by
  constructor
  · intro hnone
    unfold load_conversation_context
    rw [hnone]
  · intro conv hget hle
    have hload : load_conversation_context ws store u t
        = _deserialize_messages conv.message_history := by
      unfold load_conversation_context
      rw [hget]
      simp only [hle, if_true]
    refine ⟨hload, ?_⟩
    rw [hload]
    unfold _deserialize_messages
    rw [List.length_map]

/-- C3 witness: an empty store loads as the empty sequence, and a stored
two-record history within a window of 10 loads whole and in order. -/
theorem C3_witness :
    load_conversation_context 10 [] "u" (some "t") = []
    ∧ load_conversation_context 10
        [⟨"u", some "t", "u",
          [⟨some "HumanMessage", some "m1", some "t0", some []⟩,
           ⟨some "AIMessage", some "m2", some "t0", some []⟩],
          none, [], "t0", "t0"⟩] "u" (some "t")
      = _deserialize_messages
          [⟨some "HumanMessage", some "m1", some "t0", some []⟩,
           ⟨some "AIMessage", some "m2", some "t0", some []⟩] :=
  ⟨(C3_load_fresh_or_full 10 [] "u" (some "t")).1 (by decide),
   ((C3_load_fresh_or_full 10
      [⟨"u", some "t", "u",
        [⟨some "HumanMessage", some "m1", some "t0", some []⟩,
         ⟨some "AIMessage", some "m2", some "t0", some []⟩],
        none, [], "t0", "t0"⟩] "u" (some "t")).2
      ⟨"u", some "t", "u",
        [⟨some "HumanMessage", some "m1", some "t0", some []⟩,
         ⟨some "AIMessage", some "m2", some "t0", some []⟩],
        none, [], "t0", "t0"⟩ (by decide) (by decide)).1⟩

/-- Serializing a message with a recognized class name and deserializing
the record restores the class name and the content. -/
theorem roundtrip_one_recognized (now : String) (m : BaseMessage)
    (h : m.typeName = "HumanMessage" ∨ m.typeName = "AIMessage"
      ∨ m.typeName = "SystemMessage") :
    (_deserialize_one
        ⟨some m.typeName, some m.content, some now, some m.additional_kwargs⟩).typeName
      = m.typeName
    ∧ (_deserialize_one
        ⟨some m.typeName, some m.content, some now, some m.additional_kwargs⟩).content
      = m.content := by
  rcases h with h | h | h <;>
    simp [_deserialize_one, h, HumanMessage, AIMessage, SystemMessage]

/-- C4: saving a message list that fits the window and immediately
loading the same key returns messages with identical roles (class names)
and identical contents, element by element, whenever every saved message
has one of the three recognized roles. -/
theorem C4_save_then_load_roundtrip (now : String) (ws : Nat) (store : Store)
    (u : String) (t : Option String) (sender : String)
    (messages : List BaseMessage) (p : Option String)
    (hlen : messages.length ≤ ws)
    (hroles : ∀ m ∈ messages, m.typeName = "HumanMessage"
      ∨ m.typeName = "AIMessage" ∨ m.typeName = "SystemMessage") :
    (load_conversation_context ws
        (save_conversation_context now store u t sender messages p) u t).map
        BaseMessage.typeName
      = messages.map BaseMessage.typeName
    ∧ (load_conversation_context ws
        (save_conversation_context now store u t sender messages p) u t).map
        BaseMessage.content
      = messages.map BaseMessage.content := by
  have hget := get_conversation_save now store u t sender
    (_serialize_messages now messages) p none
  have hserlen : (_serialize_messages now messages).length ≤ ws := by
    unfold _serialize_messages
    rw [List.length_map]
    exact hlen
  have hload : load_conversation_context ws
      (save_conversation_context now store u t sender messages p) u t
      = _deserialize_messages (_serialize_messages now messages) := by
    unfold save_conversation_context load_conversation_context
    rw [hget]
    simp only [hserlen, if_true]
  have hds : _deserialize_messages (_serialize_messages now messages)
      = messages.map (fun m => _deserialize_one
          ⟨some m.typeName, some m.content, some now, some m.additional_kwargs⟩) := by
    unfold _deserialize_messages _serialize_messages
    rw [List.map_map]
    rfl
  refine ⟨?_, ?_⟩ <;> rw [hload, hds, List.map_map]
  · exact List.map_congr_left fun m hm =>
      (roundtrip_one_recognized now m (hroles m hm)).1
  · exact List.map_congr_left fun m hm =>
      (roundtrip_one_recognized now m (hroles m hm)).2

/-- C4 witness: a three-message history saved into an empty store and
loaded back keeps every role and every content. -/
theorem C4_witness :
    (load_conversation_context 10
        (save_conversation_context "t1" [] "u" (some "t") "u"
          [HumanMessage "hello", AIMessage "hi there", SystemMessage "sys"]
          none) "u" (some "t")).map BaseMessage.typeName
      = ["HumanMessage", "AIMessage", "SystemMessage"]
    ∧ (load_conversation_context 10
        (save_conversation_context "t1" [] "u" (some "t") "u"
          [HumanMessage "hello", AIMessage "hi there", SystemMessage "sys"]
          none) "u" (some "t")).map BaseMessage.content
      = ["hello", "hi there", "sys"] :=
  C4_save_then_load_roundtrip "t1" 10 [] "u" (some "t") "u"
    [HumanMessage "hello", AIMessage "hi there", SystemMessage "sys"] none
    (by decide) (by decide)

/-- C7: the sender string "Alice <alice@x.com>" parses to the address
between the angle brackets, the bare address "alice@x.com" is returned
unchanged, and the empty sender string parses to the sentinel address
"unknown@email.com". -/
theorem C7_parse_sender_cases :
    (parse_trigger_payload
        ⟨some ⟨some "Alice <alice@x.com>", none, none, none, none⟩, none⟩).sender_email
      = "alice@x.com"
    ∧ (parse_trigger_payload
        ⟨some ⟨some "alice@x.com", none, none, none, none⟩, none⟩).sender_email
      = "alice@x.com"
    ∧ (parse_trigger_payload
        ⟨some ⟨some "", none, none, none, none⟩, none⟩).sender_email
      = "unknown@email.com" := by
  refine ⟨?_, ?_, ?_⟩ <;> decide

/-- C8: a stored record whose type tag is outside the recognized set
deserializes, without failing, to a user-role (`HumanMessage`) message
carrying the record's content, and every message produced by
deserialization has its role in the closed set. -/
theorem C8_unrecognized_role_fallback (ds : List MsgDict) (d : MsgDict)
    (hur : d.type.getD "HumanMessage" ∉
      (["HumanMessage", "AIMessage", "SystemMessage"] : List String)) :
    _deserialize_one d = HumanMessage (d.content.getD "")
    ∧ ∀ m ∈ _deserialize_messages ds,
        m.typeName ∈ (["HumanMessage", "AIMessage", "SystemMessage"] : List String) := by
  constructor
  · have h1 : d.type.getD "HumanMessage" ≠ "HumanMessage" := fun h => hur (by simp [h])
    have h2 : d.type.getD "HumanMessage" ≠ "AIMessage" := fun h => hur (by simp [h])
    have h3 : d.type.getD "HumanMessage" ≠ "SystemMessage" := fun h => hur (by simp [h])
    unfold _deserialize_one
    simp [h1, h2, h3]
  · intro m hm
    rcases List.mem_map.mp hm with ⟨d', _, rfl⟩
    rcases (_deserialize_one_shape d').1 with h | h | h <;> simp [h]

/-- C8 witness: the unrecognized tag "ToolMessage" falls back to a
`HumanMessage` with the record's content, whose role is in the closed
set. -/
theorem C8_witness :
    _deserialize_one ⟨some "ToolMessage", some "x", none, none⟩ = HumanMessage "x"
    ∧ (_deserialize_one ⟨some "ToolMessage", some "x", none, none⟩).typeName
        ∈ (["HumanMessage", "AIMessage", "SystemMessage"] : List String) :=
  ⟨(C8_unrecognized_role_fallback [⟨some "ToolMessage", some "x", none, none⟩]
      ⟨some "ToolMessage", some "x", none, none⟩ (by decide)).1,
   (C8_unrecognized_role_fallback [⟨some "ToolMessage", some "x", none, none⟩]
      ⟨some "ToolMessage", some "x", none, none⟩ (by decide)).2
      (_deserialize_one ⟨some "ToolMessage", some "x", none, none⟩) (by decide)⟩

/-- C9: clearing the pending action of an existing conversation rewrites
the row with `pending_action` absent and the message history and sender
unchanged (the creation timestamp is even preserved), but the stored
auxiliary context blob is replaced by the empty map, whatever it
contained before. -/
theorem C9_clear_pending_wipes_context (now : String) (store : Store)
    (u : String) (t : Option String) (conv : ConvRow)
    (hget : get_conversation store u t = some conv) :
    get_conversation (clear_pending_action now store u t) u t
      = some { user_id := u, thread_id := t, sender_email := conv.sender_email,
               message_history := conv.message_history, pending_action := none,
               context := [], created_at := conv.created_at,
               updated_at := now } := by
  unfold clear_pending_action
  rw [hget]
  show get_conversation
    (save_conversation now store u t conv.sender_email conv.message_history
      none none) u t = _
  rw [get_conversation_save, hget]
  rfl

/-- C9 witness: a conversation with a pending action and a non-empty
context blob; after the clear, the history and sender survive but the
context is the empty map. -/
theorem C9_witness :
    get_conversation
        (clear_pending_action "t1"
          [⟨"u", some "t", "s", [⟨some "HumanMessage", some "m1", some "t0", some []⟩],
            some "awaiting_connection", [("a", "b")], "t0", "t0"⟩] "u" (some "t"))
        "u" (some "t")
      = some ⟨"u", some "t", "s", [⟨some "HumanMessage", some "m1", some "t0", some []⟩],
          none, [], "t0", "t1"⟩ :=
  C9_clear_pending_wipes_context "t1"
    [⟨"u", some "t", "s", [⟨some "HumanMessage", some "m1", some "t0", some []⟩],
      some "awaiting_connection", [("a", "b")], "t0", "t0"⟩] "u" (some "t")
    ⟨"u", some "t", "s", [⟨some "HumanMessage", some "m1", some "t0", some []⟩],
      some "awaiting_connection", [("a", "b")], "t0", "t0"⟩ (by decide)

/-- C5: a trigger whose parsed sender address case-insensitively equals
the configured non-empty mailbox address is skipped entirely: the store
is returned unchanged and no reply is attempted or sent. -/
theorem C5_loop_prevention_skip (e : String)
    (engine : List BaseMessage → List BaseMessage) (replyOk : Bool)
    (now : String) (ws : Nat) (store : Store) (trigger_data : TriggerData)
    (he : e ≠ "")
    (hsender : pyLower (parse_trigger_payload trigger_data).sender_email
      = pyLower e) :
    process_email_trigger (some e) engine replyOk now ws store trigger_data
      = ⟨store, [], []⟩ := by
  simp only [process_email_trigger, Option.getD_some]
  rw [if_pos ⟨pyLower_ne_empty he, hsender⟩]

/-- C5 witness: the assistant's own mailbox, in different letter case,
triggers the skip on a store that stays empty with no reply attempted. -/
theorem C5_witness :
    process_email_trigger (some "Me@Example.com") stubEngine true "t1" 10 []
        ⟨some ⟨some "ME@example.COM", some "s", some "b", some "t", none⟩, none⟩
      = ⟨[], [], []⟩ :=
  C5_loop_prevention_skip "Me@Example.com" stubEngine true "t1" 10 []
    ⟨some ⟨some "ME@example.COM", some "s", some "b", some "t", none⟩, none⟩
    (by decide) (by decide)

/-- C6: when reply dispatch raises (modelled by `replyOk = false`), the
turn still returns normally with the store exactly as
`save_conversation_context` left it after persisting the full post-turn
message list — the persisted record is neither removed nor altered; the
dispatch was attempted but nothing was sent. -/
theorem C6_reply_failure_keeps_persisted_store
    (engine : List BaseMessage → List BaseMessage) (now : String) (ws : Nat)
    (store : Store) (email_data : EmailData)
    (hthread : email_data.thread_id.getD "" ≠ "")
    (hresp : computeAgentResponse (engine
        (load_conversation_context ws store email_data.sender_email
            email_data.thread_id
          ++ [new_inbound_message email_data])) ≠ "") :
    (process_turn engine false now ws store email_data).store
      = save_conversation_context now store email_data.sender_email
          email_data.thread_id email_data.sender_email
          (load_conversation_context ws store email_data.sender_email
              email_data.thread_id
            ++ [new_inbound_message email_data]
            ++ engine (load_conversation_context ws store email_data.sender_email
                  email_data.thread_id
                ++ [new_inbound_message email_data])) none
    ∧ (process_turn engine false now ws store email_data).sentReplies = []
    ∧ (process_turn engine false now ws store email_data).attemptedReplies ≠ [] := by
  simp only [process_turn]
  rw [if_pos ⟨hthread, hresp⟩]
  refine ⟨rfl, rfl, ?_⟩
  simp

/-- C6 witness: a concrete turn on an empty store whose reply dispatch
fails; the store still holds exactly the persisted two-message history. -/
theorem C6_witness :
    (process_turn stubEngine false "t1" 10 []
        ⟨"bob@x.com", "Subj", "body", some "th1", none, some "ca"⟩).store
      = save_conversation_context "t1" [] "bob@x.com" (some "th1") "bob@x.com"
          (load_conversation_context 10 [] "bob@x.com" (some "th1")
            ++ [new_inbound_message
                ⟨"bob@x.com", "Subj", "body", some "th1", none, some "ca"⟩]
            ++ stubEngine (load_conversation_context 10 [] "bob@x.com" (some "th1")
                ++ [new_inbound_message
                    ⟨"bob@x.com", "Subj", "body", some "th1", none, some "ca"⟩]))
          none
    ∧ (process_turn stubEngine false "t1" 10 []
        ⟨"bob@x.com", "Subj", "body", some "th1", none, some "ca"⟩).sentReplies = []
    ∧ (process_turn stubEngine false "t1" 10 []
        ⟨"bob@x.com", "Subj", "body", some "th1", none, some "ca"⟩).attemptedReplies
      ≠ [] :=
  C6_reply_failure_keeps_persisted_store stubEngine "t1" 10 []
    ⟨"bob@x.com", "Subj", "body", some "th1", none, some "ca"⟩
    (by decide) (by decide)

/-- C10: when the configured mailbox address is unset (`none`) or the
empty string, the loop-prevention skip is never taken: every trigger is
processed as a full turn, whatever its sender. -/
theorem C10_empty_mailbox_never_skips
    (engine : List BaseMessage → List BaseMessage) (replyOk : Bool)
    (now : String) (ws : Nat) (store : Store) (trigger_data : TriggerData) :
    process_email_trigger none engine replyOk now ws store trigger_data
      = process_turn engine replyOk now ws store
          (parse_trigger_payload trigger_data)
    ∧ process_email_trigger (some "") engine replyOk now ws store trigger_data
      = process_turn engine replyOk now ws store
          (parse_trigger_payload trigger_data) := by
  have h0 : pyLower "" = "" := by decide
  constructor <;>
  · simp only [process_email_trigger, Option.getD_some, Option.getD_none, h0]
    rw [if_neg fun hcon => hcon.1 rfl]

end EmailAssistant
